import Mathlib

/-!
Shallow embedding of the activity signup page controller
(src/static/app.js) and proofs about it.

The page script fetches an activity collection, renders activity cards
and a select list, and handles two mutations: a signup form submit
(POST) and a participant removal click (DELETE).  Network and JSON
outcomes are modelled as explicit result values; DOM writes are
modelled as fields of explicit state records; setTimeout calls are
modelled as a list of scheduled hide delays.
-/

namespace ActivityApp

/-! ## Data model -/

/-- One activity as delivered by GET /activities: the value part of an
entry of the JSON object.  Numbers are modelled as integers. -/
structure Activity where
  description : String
  schedule : String
  max_participants : Int
  participants : List String
deriving DecidableEq

/-- A JSON response body for the mutation endpoints: an object that may
carry a message field and a detail field. -/
structure JsonBody where
  message : Option String
  detail : Option String
deriving DecidableEq

/-- Outcome of a mutation request as observed by the page script:
either the fetch call itself threw (transport error), or an HTTP
response arrived with an ok flag (response.ok) and a body that either
parses as JSON (some body) or does not (none, so response.json()
throws). -/
inductive MutationResponse where
  | transportError
  | http (ok : Bool) (body : Option JsonBody)
deriving DecidableEq

/-- Outcome of the GET /activities request: the fetch threw, or a
response arrived whose body parses to an activity collection (the
entries of the JSON object, in order) or fails to parse. -/
inductive FetchResult where
  | transportError
  | response (body : Option (List (String × Activity)))
deriving DecidableEq

/-! ## Message element and timers

The script writes messageDiv.textContent, assigns messageDiv.className
a literal class string, removes the hidden class, and in some branches
schedules a hide via setTimeout(..., 5000).  A class string such as
"message success" is modelled as the list of its classes. -/

/-- The message element: its text content and its class list. -/
structure MessageState where
  text : String
  classes : List String
deriving DecidableEq

/-- classList.remove: drops every occurrence of the class. -/
def classListRemove (cs : List String) (c : String) : List String :=
  cs.filter (fun x => x ≠ c)

/-- classList.add: appends the class when absent. -/
def classListAdd (cs : List String) (c : String) : List String :=
  if c ∈ cs then cs else cs ++ [c]

/-- The message element is visible when the hidden class is absent. -/
def messageVisible (m : MessageState) : Bool :=
  !(m.classes.contains "hidden")

/-- Net effect of one mutation handler run: the resulting message
element state, the delays of the hide callbacks scheduled by
setTimeout during the run, whether fetchActivities was invoked to
reload the roster, and whether signupForm.reset() was called. -/
structure MutationEffect where
  message : MessageState
  hides : List Nat
  reload : Bool
  formReset : Bool
deriving DecidableEq

/-- The message element of an effect, observed t milliseconds after
the handler ran, assuming no superseding message: visible when the
handler left it visible and no scheduled hide callback has fired yet
(a callback scheduled with delay h fires at time h). -/
def visibleAt (e : MutationEffect) (t : Nat) : Bool :=
  messageVisible e.message && e.hides.all (fun h => t < h)

/-! ## Signup submit handler

From the submit listener on signupForm: POST the signup, then
  const result = await response.json();
  if (response.ok) { show result.message, reset form, fetchActivities() }
  else { show result.detail or a fallback }
  remove hidden; setTimeout(hide, 5000)
with a catch that shows a fixed string and schedules no hide.  Note
that response.json() runs before response.ok is tested, so a non-JSON
body jumps to the catch block even when the status is a success.  The
textContent setter turns a missing field into the empty string. -/

/-- JS: value || fallback, on an optional string field.  A missing
field (undefined) and the empty string are both falsy, so both select
the fallback. -/
def orFallback (s : Option String) (fallback : String) : String :=
  match s with
  | none => fallback
  | some t => if t = "" then fallback else t

/-- The effect produced by the catch block of the signup handler. -/
def signupCatchEffect : MutationEffect :=
  { message := { text := "Failed to sign up. Please try again."
                 classes := classListRemove ["error"] "hidden" }
    hides := []
    reload := false
    formReset := false }

/-- The signup submit handler, as a function of the decoded activity
and email values and of the network outcome. -/
def signupHandler (_activity _email : String) (resp : MutationResponse) :
    MutationEffect :=
  match resp with
  | .transportError => signupCatchEffect
  | .http ok body =>
    match body with
    | none => signupCatchEffect
    | some result =>
      if ok then
        { message := { text := result.message.getD ""
                       classes := classListRemove ["message", "success"] "hidden" }
          hides := [5000]
          reload := true
          formReset := true }
      else
        { message := { text := orFallback result.detail "An error occurred"
                       classes := classListRemove ["message", "error"] "hidden" }
          hides := [5000]
          reload := false
          formReset := false }

/-! ## Delete button click handler

From the click listener attached to each delete button: DELETE the
unregister endpoint, then
  if (response.ok) { show the synthesized text, setTimeout(hide, 5000),
                     fetchActivities() }
  else { const result = await response.json(); show result.detail or a
         fallback; no setTimeout }
with a catch that shows a fixed string and schedules no hide.  On the
ok branch the body is never read, so a non-JSON body only matters on
the failure branch, where response.json() throwing jumps to the
catch block. -/

/-- The effect produced by the catch block of the delete handler. -/
def unregisterCatchEffect : MutationEffect :=
  { message := { text := "Failed to unregister. Please try again."
                 classes := classListRemove ["message", "error"] "hidden" }
    hides := []
    reload := false
    formReset := false }

/-- The delete button click handler, as a function of the decoded
activity and email values and of the network outcome. -/
def unregisterHandler (activity email : String) (resp : MutationResponse) :
    MutationEffect :=
  match resp with
  | .transportError => unregisterCatchEffect
  | .http ok body =>
    if ok then
      { message := { text := "Unregistered " ++ email ++ " from " ++ activity
                     classes := classListRemove ["message", "success"] "hidden" }
        hides := [5000]
        reload := true
        formReset := false }
    else
      match body with
      | none => unregisterCatchEffect
      | some result =>
        { message := { text := orFallback result.detail "Failed to unregister"
                       classes := classListRemove ["message", "error"] "hidden" }
          hides := []
          reload := false
          formReset := false }

/-! ## encodeURIComponent and decodeURIComponent

The script calls the browser built-ins encodeURIComponent and
decodeURIComponent; these are modelled here after the ECMAScript
specification (Encode and Decode abstract operations with the
uriComponent character sets).  A string is processed as its list of
characters (Unicode scalar values, which is what Lean Char is). -/

/-- Code points that encodeURIComponent leaves unescaped: ASCII
letters, digits, and the marks - _ . ! ~ * apostrophe ( ). -/
def isUnreservedCode (n : Nat) : Bool :=
  (decide (65 ≤ n) && decide (n ≤ 90)) ||
  (decide (97 ≤ n) && decide (n ≤ 122)) ||
  (decide (48 ≤ n) && decide (n ≤ 57)) ||
  n == 45 || n == 95 || n == 46 || n == 33 || n == 126 ||
  n == 42 || n == 39 || n == 40 || n == 41

/-- Uppercase hexadecimal digit character for a value below 16. -/
def hexDigit (n : Nat) : Char :=
  Char.ofNat (if n < 10 then 48 + n else 55 + n)

/-- Numeric value of a hexadecimal digit character, when it is one. -/
def hexVal (c : Char) : Option Nat :=
  if 48 ≤ c.toNat ∧ c.toNat ≤ 57 then some (c.toNat - 48)
  else if 65 ≤ c.toNat ∧ c.toNat ≤ 70 then some (c.toNat - 55)
  else if 97 ≤ c.toNat ∧ c.toNat ≤ 102 then some (c.toNat - 87)
  else none

/-- UTF-8 bytes of a Unicode scalar value. -/
def utf8Bytes (n : Nat) : List Nat :=
  if n < 128 then [n]
  else if n < 2048 then [192 + n / 64, 128 + n % 64]
  else if n < 65536 then [224 + n / 4096, 128 + n / 64 % 64, 128 + n % 64]
  else [240 + n / 262144, 128 + n / 4096 % 64, 128 + n / 64 % 64, 128 + n % 64]

/-- Percent escape of one byte: a percent sign and two uppercase hex
digits. -/
def escapeByte (b : Nat) : List Char :=
  ['%', hexDigit (b / 16), hexDigit (b % 16)]

/-- Encoding of one character: kept verbatim when unreserved, else the
percent escapes of its UTF-8 bytes. -/
def encChar (c : Char) : List Char :=
  if isUnreservedCode c.toNat then [c]
  else (utf8Bytes c.toNat).flatMap escapeByte

/-- encodeURIComponent on a character list. -/
def encodeURIComponentChars (l : List Char) : List Char :=
  l.flatMap encChar

/-- Intermediate item of decodeURIComponent: a character copied
verbatim, or the byte value of one percent escape. -/
inductive UriItem where
  | lit (c : Char)
  | byte (b : Nat)
deriving DecidableEq

/-- Reads the two hex digits after a percent sign: the byte value and
the remaining characters, or none when they are missing or not hex. -/
def splitEsc : List Char → Option (Nat × List Char)
  | h1 :: h2 :: rest2 =>
    match hexVal h1, hexVal h2 with
    | some a, some b => some (16 * a + b, rest2)
    | _, _ => none
  | _ => none

/-- splitEsc consumes two characters. -/
theorem splitEsc_length {l : List Char} {b : Nat} {r : List Char}
    (h : splitEsc l = some (b, r)) : r.length + 2 = l.length := by
  match l with
  | [] => simp [splitEsc] at h
  | [c1] => simp [splitEsc] at h
  | c1 :: c2 :: rest2 =>
    rcases ea : hexVal c1 with _ | a <;> rcases eb : hexVal c2 with _ | v <;>
      simp [splitEsc, ea, eb] at h
    obtain ⟨-, rfl⟩ := h
    simp

/-- First phase of decodeURIComponent: replace every percent escape by
its byte; a percent sign not followed by two hex digits fails. -/
def unescapeChars : List Char → Option (List UriItem)
  | [] => some []
  | c :: rest =>
    if c.toNat = 37 then
      match hsp : splitEsc rest with
      | some (b, rest2) =>
        (unescapeChars rest2).map (fun s => UriItem.byte b :: s)
      | none => none
    else
      (unescapeChars rest).map (fun s => UriItem.lit c :: s)
termination_by l => l.length
decreasing_by
  · have := splitEsc_length hsp; simp; omega
  · simp

/-- Checks on a completed multi-byte scalar value: at least the
smallest value needing this many bytes (no overlong form), not a
surrogate, at most 0x10FFFF. -/
def finishChecks (v lo : Nat) : Bool :=
  decide (lo ≤ v) && (decide (v < 55296) || decide (57344 ≤ v)) &&
    decide (v < 1114112)

/-- Second phase of decodeURIComponent, processing one item at a time.
The second argument is the pending multi-byte sequence, if any:
(bytes still expected, scalar value so far, smallest legal final
value).  A literal character or a standalone byte is only legal with
no pending sequence; a continuation byte (128 to 191) is only legal
with one; a lead byte (192 and up, at most 247) starts a pending
sequence; anything else, or ending the input while a sequence is
pending, fails (URIError). -/
def decodeItemsAux : List UriItem → Option (Nat × Nat × Nat) → Option (List Char)
  | [], none => some []
  | [], some _ => none
  | .lit c :: rest, none =>
    (decodeItemsAux rest none).map (fun s => c :: s)
  | .lit _ :: _, some _ => none
  | .byte b :: rest, none =>
    if b < 128 then (decodeItemsAux rest none).map (fun s => Char.ofNat b :: s)
    else if b < 192 then none
    else if b < 224 then decodeItemsAux rest (some (1, b - 192, 128))
    else if b < 240 then decodeItemsAux rest (some (2, b - 224, 2048))
    else if b < 248 then decodeItemsAux rest (some (3, b - 240, 65536))
    else none
  | .byte b :: rest, some (k, v, lo) =>
    if 128 ≤ b ∧ b < 192 then
      if k ≤ 1 then
        if finishChecks (v * 64 + (b - 128)) lo then
          (decodeItemsAux rest none).map
            (fun s => Char.ofNat (v * 64 + (b - 128)) :: s)
        else none
      else decodeItemsAux rest (some (k - 1, v * 64 + (b - 128), lo))
    else none

/-- Second phase of decodeURIComponent, started with no pending
sequence. -/
def decodeItems (l : List UriItem) : Option (List Char) :=
  decodeItemsAux l none

/-- decodeURIComponent on a character list: both phases in sequence. -/
def decodeURIComponentChars (l : List Char) : Option (List Char) :=
  (unescapeChars l).bind decodeItems

/-- encodeURIComponent on strings, as called by the script. -/
def encodeURIComponent (s : String) : String :=
  String.mk (encodeURIComponentChars s.data)

/-- decodeURIComponent on strings, as called by the script; none
models a thrown URIError. -/
def decodeURIComponent (s : String) : Option String :=
  (decodeURIComponentChars s.data).map String.mk

/-! ## Activity renderer and fetchActivities

fetchActivities awaits the GET, awaits response.json(), clears the
list container and the select element, then appends one card per
collection entry and one select option per activity name after the
sentinel option; its catch block overwrites the list container with a
static failure notice and leaves the select element untouched. -/

/-- One rendered participant row: the data-activity and data-email
attributes carry the percent-encoded pair, the span shows the raw
email. -/
structure ParticipantRow where
  dataActivity : String
  dataEmail : String
  display : String
deriving DecidableEq

/-- The participants block of a card: either one row per participant,
or the no-participants placeholder paragraph. -/
inductive ParticipantsSection where
  | rows (items : List ParticipantRow)
  | noParticipants
deriving DecidableEq

/-- One rendered activity card. -/
structure ActivityCard where
  title : String
  description : String
  schedule : String
  availability : String
  participantsSection : ParticipantsSection
deriving DecidableEq

/-- The rows of a card (empty for the placeholder). -/
def cardRows (c : ActivityCard) : List ParticipantRow :=
  match c.participantsSection with
  | .rows items => items
  | .noParticipants => []

/-- The participant item built inside the participants map: the two
data attributes receive encodeURIComponent of the name and email. -/
def participantRow (name p : String) : ParticipantRow :=
  { dataActivity := encodeURIComponent name
    dataEmail := encodeURIComponent p
    display := p }

/-- The card built for one collection entry; spots left is
max_participants minus the participant count, and the participants
section is the rows exactly when the participant list is nonempty. -/
def renderCard (name : String) (details : Activity) : ActivityCard :=
  { title := name
    description := details.description
    schedule := details.schedule
    availability :=
      toString (details.max_participants - (details.participants.length : Int))
        ++ " spots left"
    participantsSection :=
      if details.participants.length ≠ 0 then
        .rows (details.participants.map (participantRow name))
      else .noParticipants }

/-- The activities list container: either rendered cards or literal
markup (the initial loading text or the failure notice). -/
inductive ListArea where
  | html (content : String)
  | cards (cs : List ActivityCard)
deriving DecidableEq

/-- The failure notice written by the catch block of fetchActivities. -/
def failureNotice : ListArea :=
  ListArea.html "<p>Failed to load activities. Please try again later.</p>"

/-- The sentinel option the select element is reset to, as (value,
text). -/
def sentinelOption : String × String :=
  ("", "-- Select an activity --")

/-- The page state touched by fetchActivities: the list container and
the select element options (value, text). -/
structure Dom where
  activitiesList : ListArea
  selectOptions : List (String × String)
deriving DecidableEq

/-- The try block of fetchActivities: throws (error) when the fetch
throws or the body fails to parse as JSON; otherwise replaces the list
with the rendered cards and the select options with the sentinel
followed by one option per activity. -/
def fetchActivitiesBody (r : FetchResult) : Except Unit Dom :=
  match r with
  | .transportError => .error ()
  | .response none => .error ()
  | .response (some acts) =>
    .ok { activitiesList := ListArea.cards (acts.map fun p => renderCard p.1 p.2)
          selectOptions := sentinelOption :: acts.map (fun p => (p.1, p.1)) }

/-- fetchActivities with its catch block: a failing try block is
caught and only the list container is overwritten with the failure
notice, so the call as a whole never throws (always ok). -/
def fetchActivities (d : Dom) (r : FetchResult) : Except Unit Dom :=
  match fetchActivitiesBody r with
  | .ok d2 => .ok d2
  | .error _ => .ok { d with activitiesList := failureNotice }

/-- The start of the delete click handler: read the data attributes of
the enclosing participant item and decodeURIComponent both; a throw
(malformed escape) is modelled as none. -/
def deleteClickTarget (row : ParticipantRow) : Option (String × String) :=
  match decodeURIComponent row.dataActivity, decodeURIComponent row.dataEmail with
  | some activity, some email => some (activity, email)
  | _, _ => none

/-! ## Round-trip of the percent encoding -/

/-- hexVal inverts hexDigit below 16. -/
theorem hexVal_hexDigit : ∀ n : Nat, n < 16 → hexVal (hexDigit n) = some n := by
  decide

/-- The percent sign has code 37. -/
theorem percent_toNat : ('%' : Char).toNat = 37 := rfl

/-- Unescaping a literal (non percent) character. -/
theorem unescape_lit (c : Char) (h : c.toNat ≠ 37) (t : List Char) :
    unescapeChars (c :: t) =
      (unescapeChars t).map (fun s => UriItem.lit c :: s) := by
  simp only [unescapeChars, if_neg h]

/-- Unescaping one percent escape produced by escapeByte. -/
theorem unescape_escape (b : Nat) (hb : b < 256) (t : List Char) :
    unescapeChars (escapeByte b ++ t) =
      (unescapeChars t).map (fun s => UriItem.byte b :: s) := by
  have e1 : hexVal (hexDigit (b / 16)) = some (b / 16) :=
    hexVal_hexDigit _ (by omega)
  have e2 : hexVal (hexDigit (b % 16)) = some (b % 16) :=
    hexVal_hexDigit _ (by omega)
  have hs : splitEsc (hexDigit (b / 16) :: hexDigit (b % 16) :: t) =
      some (b, t) := by
    simp only [splitEsc, e1, e2]
    rw [show 16 * (b / 16) + b % 16 = b by omega]
  simp only [escapeByte, List.cons_append, List.nil_append,
    unescapeChars, percent_toNat, reduceIte]
  split
  · next b2 rest2 heq =>
    rw [hs] at heq
    simp only [Option.some.injEq, Prod.mk.injEq] at heq
    obtain ⟨rfl, rfl⟩ := heq
    rfl
  · next heq =>
    rw [hs] at heq
    cases heq

/-- Decoding a literal item. -/
theorem decodeItems_lit (c : Char) (rest : List UriItem) :
    decodeItems (.lit c :: rest) =
      (decodeItems rest).map (fun s => c :: s) := by
  simp only [decodeItems]
  rw [decodeItemsAux]

/-- Decoding an ASCII byte item. -/
theorem decodeItems_ascii (n : Nat) (h : n < 128) (rest : List UriItem) :
    decodeItems (.byte n :: rest) =
      (decodeItems rest).map (fun s => Char.ofNat n :: s) := by
  simp only [decodeItems]
  rw [decodeItemsAux, if_pos h]

/-- Decoding the two byte items the encoder emits for a scalar value
in [0x80, 0x800). -/
theorem decodeItems_two (n : Nat) (h1 : 128 ≤ n) (h2 : n < 2048)
    (rest : List UriItem) :
    decodeItems (.byte (192 + n / 64) :: .byte (128 + n % 64) :: rest) =
      (decodeItems rest).map (fun s => Char.ofNat n :: s) := by
  have hf : finishChecks n 128 = true := by
    simp only [finishChecks, Bool.and_eq_true, Bool.or_eq_true, decide_eq_true_eq]
    omega
  simp only [decodeItems]
  rw [decodeItemsAux, if_neg (by omega), if_neg (by omega), if_pos (by omega)]
  rw [show 192 + n / 64 - 192 = n / 64 by omega]
  rw [decodeItemsAux, if_pos (by omega), if_pos (by omega)]
  rw [show n / 64 * 64 + (128 + n % 64 - 128) = n by omega]
  rw [if_pos hf]

/-- Decoding the three byte items the encoder emits for a scalar value
in [0x800, 0x10000) that is not a surrogate. -/
theorem decodeItems_three (n : Nat) (h1 : 2048 ≤ n) (h2 : n < 65536)
    (hs : n < 55296 ∨ 57344 ≤ n) (rest : List UriItem) :
    decodeItems (.byte (224 + n / 4096) :: .byte (128 + n / 64 % 64) ::
        .byte (128 + n % 64) :: rest) =
      (decodeItems rest).map (fun s => Char.ofNat n :: s) := by
  have hf : finishChecks n 2048 = true := by
    simp only [finishChecks, Bool.and_eq_true, Bool.or_eq_true, decide_eq_true_eq]
    omega
  simp only [decodeItems]
  rw [decodeItemsAux, if_neg (by omega), if_neg (by omega), if_neg (by omega),
    if_pos (by omega)]
  rw [show 224 + n / 4096 - 224 = n / 4096 by omega]
  rw [decodeItemsAux, if_pos (by omega), if_neg (by omega)]
  rw [show (2 : Nat) - 1 = 1 by omega,
    show n / 4096 * 64 + (128 + n / 64 % 64 - 128) = n / 64 by omega]
  rw [decodeItemsAux, if_pos (by omega), if_pos (by omega)]
  rw [show n / 64 * 64 + (128 + n % 64 - 128) = n by omega]
  rw [if_pos hf]

/-- Decoding the four byte items the encoder emits for a scalar value
in [0x10000, 0x110000). -/
theorem decodeItems_four (n : Nat) (h1 : 65536 ≤ n) (h2 : n < 1114112)
    (rest : List UriItem) :
    decodeItems (.byte (240 + n / 262144) :: .byte (128 + n / 4096 % 64) ::
        .byte (128 + n / 64 % 64) :: .byte (128 + n % 64) :: rest) =
      (decodeItems rest).map (fun s => Char.ofNat n :: s) := by
  have hf : finishChecks n 65536 = true := by
    simp only [finishChecks, Bool.and_eq_true, Bool.or_eq_true, decide_eq_true_eq]
    omega
  simp only [decodeItems]
  rw [decodeItemsAux, if_neg (by omega), if_neg (by omega), if_neg (by omega),
    if_neg (by omega), if_pos (by omega)]
  rw [show 240 + n / 262144 - 240 = n / 262144 by omega]
  rw [decodeItemsAux, if_pos (by omega), if_neg (by omega)]
  rw [show (3 : Nat) - 1 = 2 by omega,
    show n / 262144 * 64 + (128 + n / 4096 % 64 - 128) = n / 4096 by omega]
  rw [decodeItemsAux, if_pos (by omega), if_neg (by omega)]
  rw [show (2 : Nat) - 1 = 1 by omega,
    show n / 4096 * 64 + (128 + n / 64 % 64 - 128) = n / 64 by omega]
  rw [decodeItemsAux, if_pos (by omega), if_pos (by omega)]
  rw [show n / 64 * 64 + (128 + n % 64 - 128) = n by omega]
  rw [if_pos hf]


/-- Every UTF-8 byte of a scalar value below 0x110000 fits a byte. -/
theorem utf8Bytes_lt (n : Nat) (h : n < 1114112) :
    ∀ b ∈ utf8Bytes n, b < 256 := by
  intro b hb
  unfold utf8Bytes at hb
  split_ifs at hb <;> simp at hb <;> omega

/-- Decoding the byte items of one encoded character prepends that
character. -/
theorem decodeItems_utf8 (c : Char) (rest : List UriItem) :
    decodeItems ((utf8Bytes c.toNat).map UriItem.byte ++ rest) =
      (decodeItems rest).map (fun s => c :: s) := by
  have hv : c.toNat < 55296 ∨ (57343 < c.toNat ∧ c.toNat < 1114112) := c.valid
  rcases Nat.lt_or_ge c.toNat 128 with h1 | h1
  · rw [show utf8Bytes c.toNat = [c.toNat] from by rw [utf8Bytes, if_pos h1]]
    simp only [List.map_cons, List.map_nil, List.cons_append, List.nil_append]
    rw [decodeItems_ascii _ h1, Char.ofNat_toNat]
  · rcases Nat.lt_or_ge c.toNat 2048 with h2 | h2
    · rw [show utf8Bytes c.toNat = [192 + c.toNat / 64, 128 + c.toNat % 64] from by
        rw [utf8Bytes, if_neg (by omega), if_pos h2]]
      simp only [List.map_cons, List.map_nil, List.cons_append, List.nil_append]
      rw [decodeItems_two _ h1 h2, Char.ofNat_toNat]
    · rcases Nat.lt_or_ge c.toNat 65536 with h3 | h3
      · rw [show utf8Bytes c.toNat =
            [224 + c.toNat / 4096, 128 + c.toNat / 64 % 64, 128 + c.toNat % 64] from by
          rw [utf8Bytes, if_neg (by omega), if_neg (by omega), if_pos h3]]
        simp only [List.map_cons, List.map_nil, List.cons_append, List.nil_append]
        rw [decodeItems_three _ h2 h3 (by omega), Char.ofNat_toNat]
      · rw [show utf8Bytes c.toNat =
            [240 + c.toNat / 262144, 128 + c.toNat / 4096 % 64,
             128 + c.toNat / 64 % 64, 128 + c.toNat % 64] from by
          rw [utf8Bytes, if_neg (by omega), if_neg (by omega), if_neg (by omega)]]
        simp only [List.map_cons, List.map_nil, List.cons_append, List.nil_append]
        rw [decodeItems_four _ h3 (by omega), Char.ofNat_toNat]

/-- The items one encoded character unescapes to: the character itself
when unreserved, else its UTF-8 bytes. -/
def uriItemsOf (c : Char) : List UriItem :=
  if isUnreservedCode c.toNat then [UriItem.lit c]
  else (utf8Bytes c.toNat).map UriItem.byte

/-- Unescaping a run of escaped bytes yields those bytes. -/
theorem unescape_escapes (bs : List Nat) (hbs : ∀ b ∈ bs, b < 256)
    (r : List Char) :
    unescapeChars (bs.flatMap escapeByte ++ r) =
      (unescapeChars r).map (fun s => bs.map UriItem.byte ++ s) := by
  induction bs with
  | nil =>
    simp only [List.flatMap_nil, List.nil_append, List.map_nil]
    cases unescapeChars r <;> rfl
  | cons b bs ih =>
    simp only [List.flatMap_cons, List.append_assoc, List.map_cons]
    rw [unescape_escape b (hbs b (by simp)),
      ih (fun x hx => hbs x (by simp [hx]))]
    cases unescapeChars r <;> rfl

/-- Unescaping an encoded string yields the items of its characters. -/
theorem unescape_encode (l : List Char) :
    unescapeChars (encodeURIComponentChars l) =
      some (l.flatMap uriItemsOf) := by
  induction l with
  | nil =>
    rw [show encodeURIComponentChars [] = [] from rfl]
    rw [unescapeChars]
    rfl
  | cons c t ih =>
    simp only [encodeURIComponentChars, List.flatMap_cons] at ih ⊢
    by_cases hu : isUnreservedCode c.toNat
    · rw [show encChar c = [c] from by rw [encChar, if_pos hu]]
      have hne : c.toNat ≠ 37 := by
        simp only [isUnreservedCode, Bool.or_eq_true, Bool.and_eq_true,
          decide_eq_true_eq, beq_iff_eq] at hu
        omega
      rw [List.singleton_append, unescape_lit c hne, ih]
      rw [show uriItemsOf c = [UriItem.lit c] from by rw [uriItemsOf, if_pos hu]]
      rfl
    · rw [show encChar c = (utf8Bytes c.toNat).flatMap escapeByte from by
        rw [encChar, if_neg hu]]
      have hv : c.toNat < 1114112 := by
        have hvv : c.toNat < 55296 ∨ (57343 < c.toNat ∧ c.toNat < 1114112) :=
          c.valid
        omega
      rw [unescape_escapes _ (utf8Bytes_lt _ hv), ih]
      rw [show uriItemsOf c = (utf8Bytes c.toNat).map UriItem.byte from by
        rw [uriItemsOf, if_neg hu]]
      rfl

/-- Decoding the items of a character list yields the list back. -/
theorem decodeItems_encode (l : List Char) :
    decodeItems (l.flatMap uriItemsOf) = some l := by
  induction l with
  | nil => rfl
  | cons c t ih =>
    simp only [List.flatMap_cons]
    by_cases hu : isUnreservedCode c.toNat
    · rw [show uriItemsOf c = [UriItem.lit c] from by rw [uriItemsOf, if_pos hu]]
      rw [List.singleton_append, decodeItems_lit, ih]
      rfl
    · rw [show uriItemsOf c = (utf8Bytes c.toNat).map UriItem.byte from by
        rw [uriItemsOf, if_neg hu]]
      rw [decodeItems_utf8, ih]
      rfl

/-- Round trip on character lists: decoding an encoded list gives it
back. -/
theorem decode_encode_chars (l : List Char) :
    decodeURIComponentChars (encodeURIComponentChars l) = some l := by
  rw [decodeURIComponentChars, unescape_encode]
  exact decodeItems_encode l

/-- Round trip on strings: decodeURIComponent of encodeURIComponent is
the identity, for every string. -/
theorem decode_encode (s : String) :
    decodeURIComponent (encodeURIComponent s) = some s := by
  cases s with
  | mk data =>
    simp only [encodeURIComponent, decodeURIComponent]
    rw [decode_encode_chars]
    rfl

/-! ## Helper facts about message visibility -/

/-- With one hide scheduled at 5000 ms, the message is visible exactly
before 5000 ms. -/
theorem visibleAt_timer (eff : MutationEffect)
    (hm : messageVisible eff.message = true) (hh : eff.hides = [5000])
    (t : Nat) : visibleAt eff t = decide (t < 5000) := by
  simp [visibleAt, hm, hh]

/-- With no hide scheduled, the message stays visible at every time. -/
theorem visibleAt_noTimer (eff : MutationEffect)
    (hm : messageVisible eff.message = true) (hh : eff.hides = [])
    (t : Nat) : visibleAt eff t = true := by
  simp [visibleAt, hm, hh]

/-! ## Claims -/

/-- C1, counterexample: an unregister attempt whose HTTP response has
a failure status and a JSON body sets a feedback message but schedules
no hide at all, so the message is still visible 5000 ms later,
contrary to the claim that every such message is hidden after exactly
5000 ms. -/
theorem C1_counterexample :
    (unregisterHandler "Chess Club" "a@x.com"
      (MutationResponse.http false
        (some { message := none, detail := some "Participant not found" }))).hides
      = [] ∧
    visibleAt (unregisterHandler "Chess Club" "a@x.com"
      (MutationResponse.http false
        (some { message := none, detail := some "Participant not found" }))) 5000
      = true := by
  exact ⟨rfl, rfl⟩

/-- C1, amended: every mutation outcome that sets a feedback message
makes it visible immediately, but the 5000 ms auto-hide is scheduled
only for signup outcomes whose response body parsed as JSON (success
or HTTP failure) and for unregister success; after an unregister HTTP
failure (whether its body parses or not), either transport failure, or
a signup response with an unparseable body, no hide is scheduled and
the message stays visible until superseded. -/
theorem C1_amended (a e : String) :
    (∀ ok b, (signupHandler a e (.http ok (some b))).hides = [5000] ∧
      ∀ t, visibleAt (signupHandler a e (.http ok (some b))) t =
        decide (t < 5000)) ∧
    (∀ body, (unregisterHandler a e (.http true body)).hides = [5000] ∧
      ∀ t, visibleAt (unregisterHandler a e (.http true body)) t =
        decide (t < 5000)) ∧
    (∀ b, (unregisterHandler a e (.http false (some b))).hides = [] ∧
      ∀ t, visibleAt (unregisterHandler a e (.http false (some b))) t = true) ∧
    ((unregisterHandler a e (.http false none)).hides = [] ∧
      ∀ t, visibleAt (unregisterHandler a e (.http false none)) t = true) ∧
    ((signupHandler a e .transportError).hides = [] ∧
      ∀ t, visibleAt (signupHandler a e .transportError) t = true) ∧
    (∀ ok, (signupHandler a e (.http ok none)).hides = [] ∧
      ∀ t, visibleAt (signupHandler a e (.http ok none)) t = true) ∧
    ((unregisterHandler a e .transportError).hides = [] ∧
      ∀ t, visibleAt (unregisterHandler a e .transportError) t = true) := by
  refine ⟨fun ok b => ?_, fun body => ?_, fun b => ?_, ?_, ?_, fun ok => ?_, ?_⟩
  · cases ok
    · exact ⟨rfl, fun t =>
        visibleAt_timer (signupHandler a e (.http false (some b))) rfl rfl t⟩
    · exact ⟨rfl, fun t =>
        visibleAt_timer (signupHandler a e (.http true (some b))) rfl rfl t⟩
  · exact ⟨rfl, fun t =>
      visibleAt_timer (unregisterHandler a e (.http true body)) rfl rfl t⟩
  · exact ⟨rfl, fun t =>
      visibleAt_noTimer (unregisterHandler a e (.http false (some b))) rfl rfl t⟩
  · exact ⟨rfl, fun t =>
      visibleAt_noTimer (unregisterHandler a e (.http false none)) rfl rfl t⟩
  · exact ⟨rfl, fun t =>
      visibleAt_noTimer (signupHandler a e .transportError) rfl rfl t⟩
  · exact ⟨rfl, fun t =>
      visibleAt_noTimer (signupHandler a e (.http ok none)) rfl rfl t⟩
  · exact ⟨rfl, fun t =>
      visibleAt_noTimer (unregisterHandler a e .transportError) rfl rfl t⟩

/-- C2, counterexample: on a signup transport failure the displayed
text is not the string the claim gives. -/
theorem C2_counterexample :
    (signupHandler "Chess Club" "a@x.com"
      MutationResponse.transportError).message.text ≠ "Failed to sign up" := by
  decide

/-- C2, amended: on a transport failure the displayed error message is
the fixed client-side string, namely "Failed to sign up. Please try
again." for signup and "Failed to unregister. Please try again." for
unregister, and it is visible. -/
theorem C2_amended (a e : String) :
    ((signupHandler a e .transportError).message.text =
        "Failed to sign up. Please try again." ∧
      messageVisible (signupHandler a e .transportError).message = true) ∧
    ((unregisterHandler a e .transportError).message.text =
        "Failed to unregister. Please try again." ∧
      messageVisible (unregisterHandler a e .transportError).message = true) :=
  ⟨⟨rfl, rfl⟩, ⟨rfl, rfl⟩⟩

/-- C3, counterexample: a signup response with a success status whose
body is not valid JSON triggers no roster reload (and no form reset),
contrary to the claim that a success status always triggers a
reload. -/
theorem C3_counterexample :
    (signupHandler "Chess Club" "a@x.com"
        (MutationResponse.http true none)).reload = false ∧
    (signupHandler "Chess Club" "a@x.com"
        (MutationResponse.http true none)).formReset = false :=
  ⟨rfl, rfl⟩

/-- C3, amended: a roster reload is triggered if and only if the HTTP
response has a success status and, for signup, its body parsed as
JSON; on an HTTP failure the roster is not reloaded and the signup
form is not reset; on a signup success with a parsed body the form is
reset. -/
theorem C3_amended (a e : String) :
    (∀ b, (signupHandler a e (.http true (some b))).reload = true ∧
      (signupHandler a e (.http true (some b))).formReset = true) ∧
    (∀ b, (signupHandler a e (.http false (some b))).reload = false ∧
      (signupHandler a e (.http false (some b))).formReset = false) ∧
    (∀ ok, (signupHandler a e (.http ok none)).reload = false ∧
      (signupHandler a e (.http ok none)).formReset = false) ∧
    ((signupHandler a e .transportError).reload = false ∧
      (signupHandler a e .transportError).formReset = false) ∧
    (∀ body, (unregisterHandler a e (.http true body)).reload = true) ∧
    (∀ body, (unregisterHandler a e (.http false body)).reload = false) ∧
    (unregisterHandler a e .transportError).reload = false := by
  refine ⟨fun b => ⟨rfl, rfl⟩, fun b => ⟨rfl, rfl⟩, fun ok => ⟨rfl, rfl⟩,
    ⟨rfl, rfl⟩, fun body => rfl, fun body => ?_, rfl⟩
  cases body <;> rfl

/-- C4: for a signup response whose body parsed as JSON, a success
status displays exactly the message field of the body with the success
classes; a failure status displays the detail field when it is present
and non-empty, else "An error occurred", with the error classes (the
fallback is chosen by the JS or-operator, which also treats an empty
detail string as absent). -/
theorem C4_signup_http_messages (a e m : String) (mopt dopt : Option String) :
    ((signupHandler a e
        (.http true (some { message := some m, detail := dopt }))).message.text
        = m ∧
      (signupHandler a e
        (.http true (some { message := some m, detail := dopt }))).message.classes
        = ["message", "success"]) ∧
    (∀ dtext, (signupHandler a e
        (.http false (some { message := mopt, detail := some dtext }))).message.text
        = (if dtext = "" then "An error occurred" else dtext)) ∧
    ((signupHandler a e
        (.http false (some { message := mopt, detail := none }))).message.text
        = "An error occurred") ∧
    (∀ b, (signupHandler a e (.http false (some b))).message.classes =
        ["message", "error"]) :=
  ⟨⟨rfl, rfl⟩, fun dtext => rfl, rfl, fun b => rfl⟩

/-- C5: on an unregister success the client synthesizes the
confirmation text from the email and activity alone, for every
response body (including an unparseable one, since the body is never
read on success); on an HTTP failure with a parsed body it displays
the detail field when it is present and non-empty, else "Failed to
unregister" (the fallback is chosen by the JS or-operator, which also
treats an empty detail string as absent). -/
theorem C5_unregister_http_messages (a e : String) :
    (∀ body, (unregisterHandler a e (.http true body)).message.text =
        "Unregistered " ++ e ++ " from " ++ a ∧
      (unregisterHandler a e (.http true body)).message.classes =
        ["message", "success"]) ∧
    (∀ mopt dtext, (unregisterHandler a e
        (.http false (some { message := mopt, detail := some dtext }))).message.text
        = (if dtext = "" then "Failed to unregister" else dtext)) ∧
    (∀ mopt, (unregisterHandler a e
        (.http false (some { message := mopt, detail := none }))).message.text
        = "Failed to unregister") ∧
    (∀ b, (unregisterHandler a e (.http false (some b))).message.classes =
        ["message", "error"]) :=
  ⟨fun body => ⟨rfl, rfl⟩, fun mopt dtext => rfl, fun mopt => rfl,
    fun b => rfl⟩

/-- C6: a successful fetch renders exactly one card per collection
entry; each card shows spots left computed as max_participants minus
the participant count and one row per participant; in particular a
collection entry with capacity 10 and one participant renders
"9 spots left" and one row. -/
theorem C6_render_spots_and_rows (d : Dom) (acts : List (String × Activity))
    (name : String) (det : Activity) :
    (fetchActivities d (.response (some acts)) =
      .ok { activitiesList := ListArea.cards (acts.map fun p => renderCard p.1 p.2)
            selectOptions := sentinelOption :: acts.map fun p => (p.1, p.1) }) ∧
    ((renderCard name det).availability =
      toString (det.max_participants - (det.participants.length : Int))
        ++ " spots left") ∧
    ((cardRows (renderCard name det)).length = det.participants.length) ∧
    ((renderCard "Chess Club"
        { description := "Weekly chess", schedule := "Fridays"
          max_participants := 10, participants := ["a@x.com"] }).availability =
      "9 spots left") ∧
    ((cardRows (renderCard "Chess Club"
        { description := "Weekly chess", schedule := "Fridays"
          max_participants := 10, participants := ["a@x.com"] })).length = 1) := by
  refine ⟨rfl, rfl, ?_, by decide, by decide⟩
  cases h : det.participants with
  | nil => simp [renderCard, cardRows, h]
  | cons x xs => simp [renderCard, cardRows, h]

/-- C7: decoding the data attributes written by the renderer for a
participant removal control recovers the original activity name and
email exactly, for all strings (spaces, ampersands and other unicode
included). -/
theorem C7_roundtrip (name p : String) :
    deleteClickTarget (participantRow name p) = some (name, p) := by
  unfold deleteClickTarget participantRow
  rw [decode_encode, decode_encode]

/-- C8: when the initial fetch fails (network error or a body that is
not JSON) and the select element holds only the sentinel option, the
call returns normally (ok, nothing thrown), the list area is replaced
with the failure notice and the select element still holds only the
sentinel option. -/
theorem C8_initial_fetch_failure (la : ListArea) :
    (fetchActivities { activitiesList := la, selectOptions := [sentinelOption] }
        FetchResult.transportError =
      .ok { activitiesList := failureNotice, selectOptions := [sentinelOption] }) ∧
    (fetchActivities { activitiesList := la, selectOptions := [sentinelOption] }
        (FetchResult.response none) =
      .ok { activitiesList := failureNotice, selectOptions := [sentinelOption] }) :=
  ⟨rfl, rfl⟩

/-- C9: a signup response with a failure status and an unparseable
body displays the transport-failure string (the handler awaits
response.json() before testing response.ok, so the parse error jumps
to the catch block); indeed the whole effect equals the transport
failure effect, the status flag is never consulted when the body fails
to parse, and the displayed text is not the detail fallback. -/
theorem C9_signup_nonjson_failure (a e : String) :
    ((signupHandler a e (.http false none)).message.text =
      "Failed to sign up. Please try again.") ∧
    (signupHandler a e (.http false none) =
      signupHandler a e .transportError) ∧
    (signupCatchEffect.message.text ≠ "An error occurred") ∧
    (∀ ok, signupHandler a e (.http ok none) = signupCatchEffect) :=
  ⟨rfl, rfl, by decide, fun ok => rfl⟩

/-- C10: a failing fetch (transport error or unparseable body) leaves
the select element options exactly as they were, whatever they were,
and writes only the failure notice into the list area; so after a
failed refresh the options of the previous snapshot survive. -/
theorem C10_refresh_failure_preserves_select (d : Dom) :
    (fetchActivities d FetchResult.transportError =
      .ok { activitiesList := failureNotice
            selectOptions := d.selectOptions }) ∧
    (fetchActivities d (FetchResult.response none) =
      .ok { activitiesList := failureNotice
            selectOptions := d.selectOptions }) :=
  ⟨rfl, rfl⟩

end ActivityApp
